import Mathlib

/-!
Verification of the Unity WebGL bootstrap shim (src/Build/build.framework.js).

The file is a shallow embedding of the UnityFramework class: the engine ABI
(malloc, free, the three SendMessage entry points, lengthBytesUTF8 and the
UTF-8 encoder) is modelled abstractly through an `Engine` record, and each
JavaScript method is translated into a pure Lean function that returns its
result together with an explicit trace of the engine-heap and entry-point
operations it performs.
-/

namespace Jammerx

/-- The engine ABI surface that `sendMessage` and `stringToUTF8` consume.
`lengthBytesUTF8` is the engine byte-length primitive (external, so kept
abstract); the three `*Throws` fields say whether the corresponding engine
entry point throws when dispatched, so theorems quantify over every
engine behaviour. -/
structure Engine where
  lengthBytesUTF8 : String → Nat
  smThrows : Nat → Nat → Bool
  smsThrows : Nat → Nat → Nat → Bool
  smfThrows : Nat → Nat → Int → Bool

/-- One observable operation on the engine heap or entry points. -/
inductive Event where
  | malloc (ptr len : Nat)
  | encode (s : String) (ptr len : Nat)
  | free (ptr : Nat)
  | callSendMessage (obj fn : Nat)
  | callSendMessageString (obj fn arg : Nat)
  | callSendMessageFloat (obj fn : Nat) (x : Int)
deriving DecidableEq, Repr

/-- The shape of the optional third argument of `sendMessage`:
absent (`undefined`), a string, a number, or anything else
(carrying its `typeof` tag). -/
inductive Param where
  | undef
  | str (s : String)
  | num (x : Int)
  | other (typeofTag : String)
deriving DecidableEq, Repr

/-- Errors `sendMessage` can propagate: the unsupported-parameter-type
`Error` it throws itself, or an error thrown by the dispatched engine
entry point. -/
inductive SMError where
  | unsupported (typeofTag : String)
  | engineThrow
deriving DecidableEq, Repr

/-- Embedding of the helper `stringToUTF8(str)`:
`len = Module.lengthBytesUTF8(str) + 1; ptr = Module._malloc(len);
Module.stringToUTF8(str, ptr, len); return ptr`.
The allocator state is the next fresh pointer `next` (the engine malloc
never returns 0, so callers take `0 < next`); the result is
(returned pointer, new allocator state, emitted events). -/
def stringToUTF8 (eng : Engine) (next : Nat) (s : String) :
    Nat × Nat × List Event :=
  let len := eng.lengthBytesUTF8 s + 1
  (next, next + len, [Event.malloc next len, Event.encode s next len])

/-- Embedding of `sendMessage(gameObject, func, param)`: marshals `func`
then `gameObject`, dispatches on the shape of `param`, and in every branch
runs the `finally` block `_free(paramPtr); _free(objPtr); _free(funcPtr)`
with `paramPtr` initialised to 0. Returns (result, trace, allocator state). -/
def sendMessage (eng : Engine) (next : Nat) (gameObject fn : String)
    (param : Param) : Except SMError Unit × List Event × Nat :=
  let r1 := stringToUTF8 eng next fn
  let r2 := stringToUTF8 eng r1.2.1 gameObject
  let funcPtr := r1.1
  let objPtr := r2.1
  match param with
  | Param.undef =>
      ((if eng.smThrows objPtr funcPtr then Except.error SMError.engineThrow
        else Except.ok ()),
       r1.2.2 ++ r2.2.2 ++ [Event.callSendMessage objPtr funcPtr]
         ++ [Event.free 0, Event.free objPtr, Event.free funcPtr],
       r2.2.1)
  | Param.str s =>
      let r3 := stringToUTF8 eng r2.2.1 s
      ((if eng.smsThrows objPtr funcPtr r3.1 then Except.error SMError.engineThrow
        else Except.ok ()),
       r1.2.2 ++ r2.2.2 ++ r3.2.2
         ++ [Event.callSendMessageString objPtr funcPtr r3.1]
         ++ [Event.free r3.1, Event.free objPtr, Event.free funcPtr],
       r3.2.1)
  | Param.num x =>
      ((if eng.smfThrows objPtr funcPtr x then Except.error SMError.engineThrow
        else Except.ok ()),
       r1.2.2 ++ r2.2.2 ++ [Event.callSendMessageFloat objPtr funcPtr x]
         ++ [Event.free 0, Event.free objPtr, Event.free funcPtr],
       r2.2.1)
  | Param.other tag =>
      (Except.error (SMError.unsupported tag),
       r1.2.2 ++ r2.2.2
         ++ [Event.free 0, Event.free objPtr, Event.free funcPtr],
       r2.2.1)

/-- The event trace of one `sendMessage` call. -/
def sendMessageTrace (eng : Engine) (next : Nat) (gameObject fn : String)
    (param : Param) : List Event :=
  (sendMessage eng next gameObject fn param).2.1

/-- Whether an event is a dispatch of one of the three engine entry points. -/
def Event.isCall : Event → Bool
  | Event.callSendMessage _ _ => true
  | Event.callSendMessageString _ _ _ => true
  | Event.callSendMessageFloat _ _ _ => true
  | _ => false

/-- The entry-point dispatches occurring in a trace. -/
def callEvents (tr : List Event) : List Event := tr.filter Event.isCall

/-- The pointers returned by `_malloc` in a trace, in order. -/
def allocatedPtrs (tr : List Event) : List Nat :=
  tr.filterMap fun e => match e with
    | Event.malloc p _ => some p
    | _ => none

/-- The pointers passed to `_free` in a trace, in order. -/
def freedPtrs (tr : List Event) : List Nat :=
  tr.filterMap fun e => match e with
    | Event.free p => some p
    | _ => none

/-- The non-null pointers passed to `_free` in a trace. -/
def freedNonNullPtrs (tr : List Event) : List Nat :=
  (freedPtrs tr).filter fun p => p ≠ 0

/-- Claim C1: every `sendMessage(target, method, argument)` call dispatches
exactly one engine entry point, chosen by the shape of the argument: absent
gives one `_SendMessage(objPtr, funcPtr)` call, a string gives one
`_SendMessageString(objPtr, funcPtr, paramPtr)` call, a number gives one
`_SendMessageFloat(objPtr, funcPtr, x)` call with the numeric value passed
through unmodified. The pointers used are exactly the ones under which
`method` and `target` were encoded (the `encode` conjuncts). -/
theorem sendMessage_dispatches_exactly_once (eng : Engine) (next : Nat)
    (go fn s : String) (x : Int) :
    callEvents (sendMessageTrace eng next go fn Param.undef) =
      [Event.callSendMessage (next + (eng.lengthBytesUTF8 fn + 1)) next] ∧
    callEvents (sendMessageTrace eng next go fn (Param.str s)) =
      [Event.callSendMessageString (next + (eng.lengthBytesUTF8 fn + 1)) next
        (next + (eng.lengthBytesUTF8 fn + 1) + (eng.lengthBytesUTF8 go + 1))] ∧
    callEvents (sendMessageTrace eng next go fn (Param.num x)) =
      [Event.callSendMessageFloat (next + (eng.lengthBytesUTF8 fn + 1)) next x] ∧
    Event.encode fn next (eng.lengthBytesUTF8 fn + 1) ∈
      sendMessageTrace eng next go fn Param.undef ∧
    Event.encode go (next + (eng.lengthBytesUTF8 fn + 1))
        (eng.lengthBytesUTF8 go + 1) ∈
      sendMessageTrace eng next go fn Param.undef := by
  refine ⟨rfl, rfl, rfl, ?_, ?_⟩ <;>
    simp [sendMessageTrace, sendMessage, stringToUTF8]

/-- Claim C3: a `sendMessage` call whose argument is neither absent, a
string, nor a number fails with the unsupported-type error, no engine entry
point is dispatched, and the target and method buffers (at
`next + lengthBytesUTF8 fn + 1` and `next`) are still freed. -/
theorem sendMessage_unsupported_no_dispatch (eng : Engine) (next : Nat)
    (go fn tag : String) :
    (sendMessage eng next go fn (Param.other tag)).1 =
      Except.error (SMError.unsupported tag) ∧
    callEvents (sendMessageTrace eng next go fn (Param.other tag)) = [] ∧
    Event.free (next + (eng.lengthBytesUTF8 fn + 1)) ∈
      sendMessageTrace eng next go fn (Param.other tag) ∧
    Event.free next ∈ sendMessageTrace eng next go fn (Param.other tag) := by
  refine ⟨rfl, rfl, ?_, ?_⟩ <;>
    simp [sendMessageTrace, sendMessage, stringToUTF8]

/-- Claim C9: with an absent or numeric argument, `sendMessage` performs
exactly three `_free` calls but only two `_malloc` calls: the unused
parameter slot stays 0 and is freed unconditionally, so the trace contains
a `_free(0)` — correctness relies on freeing the null pointer being a
no-op in the engine allocator. -/
theorem sendMessage_frees_null_param_ptr (eng : Engine) (next : Nat)
    (go fn : String) (x : Int) :
    ((freedPtrs (sendMessageTrace eng next go fn Param.undef)).length = 3 ∧
     (allocatedPtrs (sendMessageTrace eng next go fn Param.undef)).length = 2 ∧
     Event.free 0 ∈ sendMessageTrace eng next go fn Param.undef) ∧
    ((freedPtrs (sendMessageTrace eng next go fn (Param.num x))).length = 3 ∧
     (allocatedPtrs (sendMessageTrace eng next go fn (Param.num x))).length = 2 ∧
     Event.free 0 ∈ sendMessageTrace eng next go fn (Param.num x)) := by
  refine ⟨⟨rfl, rfl, ?_⟩, ⟨rfl, rfl, ?_⟩⟩ <;>
    simp [sendMessageTrace, sendMessage, stringToUTF8]

/-- Claim C2: whatever the argument shape and whatever the engine entry
points do (return or throw), a `sendMessage` call frees exactly the buffers
it allocated: the non-null pointers passed to `_free` are a permutation of
the pointers returned by `_malloc`, and the allocated pointers are pairwise
distinct, so no buffer leaks and none is freed twice. The hypothesis
`0 < next` records the engine-allocator contract that `_malloc` never
returns the null pointer. -/
theorem sendMessage_alloc_free_pairing (eng : Engine) (next : Nat)
    (go fn : String) (param : Param) (h : 0 < next) :
    (freedNonNullPtrs (sendMessageTrace eng next go fn param)).Perm
      (allocatedPtrs (sendMessageTrace eng next go fn param)) ∧
    (allocatedPtrs (sendMessageTrace eng next go fn param)).Nodup := by
  have hne : next ≠ 0 := Nat.pos_iff_ne_zero.mp h
  cases param <;>
    simp [sendMessageTrace, sendMessage, stringToUTF8, freedNonNullPtrs,
      freedPtrs, allocatedPtrs, hne, List.filter]
  case str s =>
    constructor
    · exact (List.Perm.swap _ _ _).trans
        ((List.Perm.cons _ (List.Perm.swap _ _ [])).trans
          (List.Perm.swap _ _ _))
    · omega
  case undef => exact List.Perm.swap next _ []
  case num => exact List.Perm.swap next _ []
  case other => exact List.Perm.swap next _ []

/-- Engine instance used to evaluate the claims at concrete inputs:
UTF-8 length is the real byte length and no entry point throws. -/
def engRfl : Engine :=
  { lengthBytesUTF8 := fun s => s.utf8ByteSize,
    smThrows := fun _ _ => false,
    smsThrows := fun _ _ _ => false,
    smfThrows := fun _ _ _ => false }

/-- Witness for C2 at a concrete call: `sendMessage("Player", "SetScore", "9")`
starting from allocator state 1. -/
theorem sendMessage_alloc_free_pairing_witness :
    (freedNonNullPtrs (sendMessageTrace engRfl 1 "Player" "SetScore"
        (Param.str "9"))).Perm
      (allocatedPtrs (sendMessageTrace engRfl 1 "Player" "SetScore"
        (Param.str "9"))) ∧
    (allocatedPtrs (sendMessageTrace engRfl 1 "Player" "SetScore"
        (Param.str "9"))).Nodup :=
  sendMessage_alloc_free_pairing engRfl 1 "Player" "SetScore"
    (Param.str "9") (by decide)

/-- Claim C10: the marshaling helper `stringToUTF8` allocates a buffer of
exactly the engine-reported UTF-8 byte length of the string plus one, and
passes that same pointer and byte budget on to the engine encoder, so the
null terminator fits inside the allocation and the encoder is never given
a budget larger than the buffer. -/
theorem stringToUTF8_exact_budget (eng : Engine) (next : Nat) (s : String) :
    (stringToUTF8 eng next s).2.2 =
      [Event.malloc (stringToUTF8 eng next s).1 (eng.lengthBytesUTF8 s + 1),
       Event.encode s (stringToUTF8 eng next s).1
         (eng.lengthBytesUTF8 s + 1)] := rfl

/-! ## Initialization sequence -/

/-- The three environment flags returned by `detectEnvironment`. -/
structure EnvFlags where
  isWeb : Bool
  isWorker : Bool
  isNode : Bool
deriving DecidableEq, Repr

/-- The ambient host globals the loader inspects: whether `window` is an
object, whether `importScripts` is a function, whether a Node-style
`process.versions.node` string exists, the value of
`document.currentScript.src` when `document` is defined and
`currentScript` truthy (`none` otherwise), the Node `__filename` global,
and which audio-context constructors exist on `window`. -/
structure World where
  windowPresent : Bool
  importScriptsPresent : Bool
  nodePresent : Bool
  documentCurrentScriptSrc : Option String
  filenameGlobal : String
  audioContextPresent : Bool
  webkitAudioContextPresent : Bool
deriving DecidableEq, Repr

/-- Embedding of `detectEnvironment()`. -/
def detectEnvironment (w : World) : EnvFlags :=
  { isWeb := w.windowPresent,
    isWorker := w.importScriptsPresent,
    isNode := w.nodePresent }

/-- State of the `Module.ready` promise created by `createModule`. -/
inductive ReadyState where
  | pending
  | resolved
  | rejected
deriving DecidableEq, Repr

/-- The hooks this file can push onto `Module.preRun`. -/
inductive HookId where
  | fsMount
deriving DecidableEq, Repr

/-- The observable fields of the configuration object (`Module`) that the
loader builds and mutates: the state of the `ready` promise, the pre/post
run hook lists, the script directory, and whether the `GL` and `WEBAudio`
subsystem handles have been attached. -/
structure ModuleCfg where
  readyState : ReadyState
  preRun : List HookId
  postRun : List HookId
  scriptDirectory : String
  hasGL : Bool
  hasWebAudio : Bool
deriving DecidableEq, Repr

/-- Embedding of `getScriptDirectory()`: the `currentScript.src` when in a
web page with a current script, else `__filename` under Node, else the
empty string. -/
def getScriptDirectory (env : EnvFlags) (w : World) : String :=
  if env.isWeb && w.documentCurrentScriptSrc.isSome then
    w.documentCurrentScriptSrc.getD ""
  else if env.isNode then
    w.filenameGlobal
  else ""

/-- Embedding of `createModule(scriptDirectory)`: fresh configuration
object with a pending `ready` promise and empty hook lists. The
`resolve`/`reject` handles the source stashes on the previous `this.Module`
object are never invoked anywhere in the file, so no operation of this
model transitions `readyState`. -/
def createModule (scriptDirectory : String) : ModuleCfg :=
  { readyState := ReadyState.pending,
    preRun := [],
    postRun := [],
    scriptDirectory := scriptDirectory,
    hasGL := false,
    hasWebAudio := false }

/-- Embedding of `setupFilesystem()`: outside a worker context it pushes
the filesystem-mount hook onto `Module.preRun`; inside a worker it does
nothing. -/
def setupFilesystem (env : EnvFlags) (m : ModuleCfg) : ModuleCfg :=
  if env.isWorker then m
  else { m with preRun := m.preRun ++ [HookId.fsMount] }

/-- Embedding of `setupWebGL()`: attaches the `Module.GL` handle. It only
installs the context factory; it does not invoke it. -/
def setupWebGL (m : ModuleCfg) : ModuleCfg :=
  { m with hasGL := true }

/-- Embedding of the installed factory `Module.GL.createContext`: applied
to the value `canvas.getContext("webgl", attributes)` returned by the
canvas (`none` models a falsy result), it throws
"WebGL context creation failed" on falsy and returns the context
otherwise. -/
def GL_createContext (getContextResult : Option Nat) : Except String Nat :=
  match getContextResult with
  | none => Except.error "WebGL context creation failed"
  | some ctx => Except.ok ctx

/-- A JavaScript error raised while evaluating a setup step. -/
inductive JsErr where
  | referenceError (name : String)
  | typeError (msg : String)
deriving DecidableEq, Repr

/-- Embedding of `setupAudio()`: evaluates
`new (window.AudioContext || window.webkitAudioContext)()`. When `window`
is not defined this raises a ReferenceError; when neither constructor
exists it raises a TypeError; otherwise it attaches `Module.WEBAudio`. -/
def setupAudio (w : World) (m : ModuleCfg) : Except JsErr ModuleCfg :=
  if w.windowPresent then
    if w.audioContextPresent || w.webkitAudioContextPresent then
      Except.ok { m with hasWebAudio := true }
    else Except.error (JsErr.typeError "constructor is not a function")
  else Except.error (JsErr.referenceError "window")

/-- The `UnityError` the `initialize()` catch block throws: a message and
the original cause. -/
structure UnityError where
  message : String
  cause : JsErr
deriving DecidableEq, Repr

/-- The loader state observable after `initialize()` settles: the
configuration object and the `isReady` flag. -/
structure LoaderState where
  Module : ModuleCfg
  isReady : Bool
deriving DecidableEq, Repr

/-- Embedding of `initialize()`: run `getScriptDirectory`, `createModule`,
`setupFilesystem`, `setupWebGL` and `setupAudio` in sequence; on success
set `isReady`; on any step failing, wrap the cause in
`UnityError("Initialization failed", cause)` and rethrow, leaving
`isReady` false. The first component is the settlement of the promise
returned by `initialize()` itself. -/
def initializeFramework (w : World) : Except UnityError Unit × LoaderState :=
  let env := detectEnvironment w
  let sd := getScriptDirectory env w
  let m1 := setupFilesystem env (createModule sd)
  let m2 := setupWebGL m1
  match setupAudio w m2 with
  | Except.ok m3 => (Except.ok (), { Module := m3, isReady := true })
  | Except.error e =>
      (Except.error { message := "Initialization failed", cause := e },
       { Module := m2, isReady := false })

/-- A browser world: `window` with `AudioContext`, a current script, no
worker and no Node globals. Every setup step succeeds here. -/
def wBrowser : World :=
  { windowPresent := true,
    importScriptsPresent := false,
    nodePresent := false,
    documentCurrentScriptSrc := some "https://host/Build/build.framework.js",
    filenameGlobal := "",
    audioContextPresent := true,
    webkitAudioContextPresent := false }

/-- A bare world: none of the page, worker or Node globals exist. -/
def wHeadless : World :=
  { windowPresent := false,
    importScriptsPresent := false,
    nodePresent := false,
    documentCurrentScriptSrc := none,
    filenameGlobal := "",
    audioContextPresent := false,
    webkitAudioContextPresent := false }

/-- A worker world: `importScripts` exists, `window` does not. -/
def wWorker : World :=
  { windowPresent := false,
    importScriptsPresent := true,
    nodePresent := false,
    documentCurrentScriptSrc := none,
    filenameGlobal := "",
    audioContextPresent := false,
    webkitAudioContextPresent := false }

/-- Observable operations performed by the registered filesystem-mount
pre-run hook. -/
inductive FsEvent where
  | mkdir (path : String)
  | mountIDBFS (path : String)
  | addRunDependency (tok : String)
  | syncfsStart (populate : Bool)
  | warn (msg : String)
  | removeRunDependency (tok : String)
deriving DecidableEq, Repr

/-- Embedding of one complete execution of the pre-run hook pushed by
`setupFilesystem`, including the completion of the asynchronous
`FS.syncfs` callback: `syncErr` is the error the sync completed with
(`none` on success). The callback warns on error and always removes the
run dependency. -/
def runFsMountHook (syncErr : Option String) : List FsEvent :=
  [FsEvent.mkdir "/idbfs", FsEvent.mountIDBFS "/idbfs",
   FsEvent.addRunDependency "JS_FileSystem_Mount",
   FsEvent.syncfsStart true]
  ++ (match syncErr with
      | some e => [FsEvent.warn ("IndexedDB unavailable: " ++ e)]
      | none => [])
  ++ [FsEvent.removeRunDependency "JS_FileSystem_Mount"]

/-- Claim C4 (code bug): the readiness promise of the configuration object
is never settled. A fully successful run (`wBrowser`) resolves the promise
returned by `initialize()` itself, yet for every world the `Module.ready`
state is still pending afterwards: the stashed `resolve`/`reject` handles
are never invoked (and were stored on the discarded previous `Module`
object), so the readiness signal neither resolves on success nor rejects
on failure. -/
theorem initializeFramework_never_settles_ready :
    (initializeFramework wBrowser).1 = Except.ok () ∧
    (initializeFramework wBrowser).2.isReady = true ∧
    ∀ w : World,
      (initializeFramework w).2.Module.readyState = ReadyState.pending := by
  refine ⟨rfl, rfl, fun w => ?_⟩
  cases hwin : w.windowPresent <;> cases hac : w.audioContextPresent <;>
    cases hwk : w.webkitAudioContextPresent <;>
    cases hws : w.importScriptsPresent <;>
    simp [initializeFramework, setupAudio, setupWebGL, setupFilesystem,
      detectEnvironment, createModule, hwin, hac, hwk, hws]

/-- Counterexample to claim C5: WebGL context creation returning a falsy
value (the factory applied to a falsy `getContext` result throws) does not
make the promise of `initialize()` reject — in the browser world the
factory invocation fails while `initialize()` still resolves and sets the
ready flag. -/
theorem webgl_falsy_does_not_reject_init_cx :
    GL_createContext none = Except.error "WebGL context creation failed" ∧
    (initializeFramework wBrowser).1 = Except.ok () ∧
    (initializeFramework wBrowser).2.isReady = true :=
  ⟨rfl, rfl, rfl⟩

/-- Claim C5 as amended: when context creation returns a falsy value, the
installed WebGL context factory itself throws the context-creation error
at the moment it is invoked; `initialize()` only installs the factory and
never invokes it, so `initialize()` still resolves (whenever audio setup
succeeds) regardless of WebGL context failure. -/
theorem webgl_falsy_factory_throws_init_ok (r : Option Nat) (w : World)
    (hr : r = none) (hw : w.windowPresent = true)
    (ha : (w.audioContextPresent || w.webkitAudioContextPresent) = true) :
    GL_createContext r = Except.error "WebGL context creation failed" ∧
    (initializeFramework w).1 = Except.ok () ∧
    (initializeFramework w).2.isReady = true := by
  subst hr
  refine ⟨rfl, ?_, ?_⟩ <;>
    simp [initializeFramework, setupAudio, setupWebGL, setupFilesystem,
      detectEnvironment, createModule, hw, ha]

/-- Witness for the amended C5 at the browser world and a falsy
`getContext` result. -/
theorem webgl_falsy_factory_throws_init_ok_witness :
    GL_createContext none = Except.error "WebGL context creation failed" ∧
    (initializeFramework wBrowser).1 = Except.ok () ∧
    (initializeFramework wBrowser).2.isReady = true :=
  webgl_falsy_factory_throws_init_ok none wBrowser rfl rfl rfl

/-- Counterexample to claim C6: with all three environment flags false the
script path does resolve to the empty string, but `initialize()` does not
complete successfully — audio setup raises a ReferenceError on the absent
`window`, the promise rejects with the wrapped initialization failure, and
the ready flag stays false. -/
theorem headless_init_fails_cx :
    detectEnvironment wHeadless =
      { isWeb := false, isWorker := false, isNode := false } ∧
    getScriptDirectory (detectEnvironment wHeadless) wHeadless = "" ∧
    (initializeFramework wHeadless).1 =
      Except.error { message := "Initialization failed",
                     cause := JsErr.referenceError "window" } ∧
    (initializeFramework wHeadless).2.isReady = false :=
  ⟨rfl, rfl, rfl, rfl⟩

/-- Claim C6 as amended: when all three environment flags are false,
`getScriptDirectory` resolves the script path to the empty string, but
`initialize()` fails rather than completing — `setupAudio` accesses the
absent `window` object, so the promise rejects with the
initialization-failure error wrapping that ReferenceError and the ready
flag is not set. -/
theorem headless_empty_dir_init_fails (w : World)
    (hw : w.windowPresent = false) (hn : w.nodePresent = false)
    (hi : w.importScriptsPresent = false) :
    getScriptDirectory (detectEnvironment w) w = "" ∧
    (initializeFramework w).1 =
      Except.error { message := "Initialization failed",
                     cause := JsErr.referenceError "window" } ∧
    (initializeFramework w).2.isReady = false := by
  refine ⟨?_, ?_, ?_⟩ <;>
    simp [getScriptDirectory, detectEnvironment, initializeFramework,
      setupAudio, setupWebGL, setupFilesystem, createModule, hw, hn, hi]

/-- Witness for the amended C6 at the bare world. -/
theorem headless_empty_dir_init_fails_witness :
    getScriptDirectory (detectEnvironment wHeadless) wHeadless = "" ∧
    (initializeFramework wHeadless).1 =
      Except.error { message := "Initialization failed",
                     cause := JsErr.referenceError "window" } ∧
    (initializeFramework wHeadless).2.isReady = false :=
  headless_empty_dir_init_fails wHeadless rfl rfl rfl

/-- Claim C7: for every outcome of the asynchronous persistent-storage
sync (success or any error), the filesystem-mount hook ends by clearing
the run-dependency token "JS_FileSystem_Mount" that it registered; a
failing sync only inserts a warning into the trace and changes nothing
else, so startup is never permanently blocked by a sync failure. -/
theorem fsMountHook_always_clears_run_dependency :
    (∀ e : Option String,
      (runFsMountHook e).getLast? =
        some (FsEvent.removeRunDependency "JS_FileSystem_Mount") ∧
      FsEvent.addRunDependency "JS_FileSystem_Mount" ∈ runFsMountHook e) ∧
    runFsMountHook none =
      [FsEvent.mkdir "/idbfs", FsEvent.mountIDBFS "/idbfs",
       FsEvent.addRunDependency "JS_FileSystem_Mount",
       FsEvent.syncfsStart true,
       FsEvent.removeRunDependency "JS_FileSystem_Mount"] ∧
    ∀ msg, runFsMountHook (some msg) =
      [FsEvent.mkdir "/idbfs", FsEvent.mountIDBFS "/idbfs",
       FsEvent.addRunDependency "JS_FileSystem_Mount",
       FsEvent.syncfsStart true,
       FsEvent.warn ("IndexedDB unavailable: " ++ msg),
       FsEvent.removeRunDependency "JS_FileSystem_Mount"] := by
  refine ⟨fun e => ?_, rfl, fun msg => rfl⟩
  cases e <;> simp [runFsMountHook]

/-- Claim C8: in a worker context `setupFilesystem` registers nothing (the
configuration object is returned unchanged), and after the whole
initialization sequence the pre-run hook list is still empty, so no mount,
run-dependency, or sync operation is ever queued. -/
theorem setupFilesystem_worker_skips (w : World) (m : ModuleCfg)
    (h : w.importScriptsPresent = true) :
    setupFilesystem (detectEnvironment w) m = m ∧
    (initializeFramework w).2.Module.preRun = [] := by
  constructor
  · simp [setupFilesystem, detectEnvironment, h]
  · cases hwin : w.windowPresent <;> cases hac : w.audioContextPresent <;>
      cases hwk : w.webkitAudioContextPresent <;>
      simp [initializeFramework, setupAudio, setupWebGL, setupFilesystem,
        detectEnvironment, createModule, h, hwin, hac, hwk]

/-- Witness for C8 at the worker world. -/
theorem setupFilesystem_worker_skips_witness :
    setupFilesystem (detectEnvironment wWorker) (createModule "") =
      createModule "" ∧
    (initializeFramework wWorker).2.Module.preRun = [] :=
  setupFilesystem_worker_skips wWorker (createModule "") rfl

end Jammerx
